import Mathlib

/-!
Verification of the golf-course research scripts.

The development shallowly embeds the core logic of the program:

* `radians`, `aTerm`, `atan2`, `haversine` — the great-circle distance of
  `analysis.py` (`haversine`), over exact reals.
* `Course`, `black_pop_of`, `df_sorted`, `cum_black_pop`, `total_black_pop`,
  `relative_fraction`, `avg_dist`, `majority_black`, `not_majority_black` —
  the aggregation stage of `analysis.py` (`run_analysis`), over exact
  rationals.  Missing CSV cells (pandas `NaN`) are embedded as `none`;
  pandas arithmetic propagates `NaN` through `*`, `/` while `sum`/`cumsum`
  skip it, which the `Option`-valued combinators below mirror.
* `process_place` — the deduplicating merge loop of `maps_golf_lookup.py`.
* `is_same_origin`, `is_radius_needed` — the radius-skip logic of
  `maps_golf_lookup.py`.
* `get_demographics` — the pure arithmetic of the demographic lookup of
  `maps_golf_lookup.py` / `temp_integration.py`.
-/

namespace GolfResearch

/-! ### Haversine distance (`analysis.py`, lines 9-16), over exact reals -/

/-- Embedding of Python `math.radians`: degrees to radians. -/
noncomputable def radians (d : ℝ) : ℝ := d * (Real.pi / 180)

/-- Embedding of Python `math.atan2` on real arguments (sign conventions of
signed zeros do not exist over `ℝ`; `atan2 0 0 = 0` as in CPython). -/
noncomputable def atan2 (y x : ℝ) : ℝ :=
  if 0 < x then Real.arctan (y / x)
  else if x < 0 ∧ 0 ≤ y then Real.arctan (y / x) + Real.pi
  else if x < 0 ∧ y < 0 then Real.arctan (y / x) - Real.pi
  else if x = 0 ∧ 0 < y then Real.pi / 2
  else if x = 0 ∧ y < 0 then -(Real.pi / 2)
  else 0

/-- Earth radius in miles, the constant `R` of `haversine`. -/
noncomputable def earthR : ℝ := 3958.8

/-- The intermediate value `a` of `haversine`:
`sin(dphi/2)**2 + cos(phi1)*cos(phi2)*sin(dlambda/2)**2`. -/
noncomputable def aTerm (lat1 lon1 lat2 lon2 : ℝ) : ℝ :=
  Real.sin (radians (lat2 - lat1) / 2) ^ 2 +
    Real.cos (radians lat1) * Real.cos (radians lat2) *
      Real.sin (radians (lon2 - lon1) / 2) ^ 2

/-- Embedding of `haversine(lat1, lon1, lat2, lon2)` from `analysis.py`:
`2 * R * atan2(sqrt(a), sqrt(1 - a))`. -/
noncomputable def haversine (lat1 lon1 lat2 lon2 : ℝ) : ℝ :=
  2 * earthR *
    atan2 (Real.sqrt (aTerm lat1 lon1 lat2 lon2))
      (Real.sqrt (1 - aTerm lat1 lon1 lat2 lon2))

theorem atan2_nonneg {y x : ℝ} (hy : 0 ≤ y) (hx : 0 ≤ x) : 0 ≤ atan2 y x := by
  unfold atan2
  split_ifs with h1 h2 h3 h4 h5
  · have := Real.arctan_strictMono.monotone (div_nonneg hy (le_of_lt h1))
    simpa [Real.arctan_zero] using this
  · exact absurd h2.1 (not_lt.mpr hx)
  · exact absurd h3.1 (not_lt.mpr hx)
  · positivity
  · exact absurd h5.2 (not_lt.mpr hy)
  · exact le_refl 0

theorem atan2_le_pi_div_two {y x : ℝ} (hy : 0 ≤ y) (hx : 0 ≤ x) :
    atan2 y x ≤ Real.pi / 2 := by
  unfold atan2
  split_ifs with h1 h2 h3 h4 h5
  · exact le_of_lt (Real.arctan_lt_pi_div_two _)
  · exact absurd h2.1 (not_lt.mpr hx)
  · exact absurd h3.1 (not_lt.mpr hx)
  · exact le_refl _
  · exact absurd h5.2 (not_lt.mpr hy)
  · positivity

theorem atan2_one_zero : atan2 1 0 = Real.pi / 2 := by
  unfold atan2
  norm_num

theorem atan2_zero_one : atan2 0 1 = 0 := by
  unfold atan2
  norm_num [Real.arctan_zero]

theorem cos_radians_nonneg {lat : ℝ} (h : |lat| ≤ 90) : 0 ≤ Real.cos (radians lat) := by
  rw [abs_le] at h
  apply Real.cos_nonneg_of_neg_pi_div_two_le_of_le
  · unfold radians
    nlinarith [Real.pi_pos, h.1]
  · unfold radians
    nlinarith [Real.pi_pos, h.2]

theorem aTerm_nonneg {lat1 lat2 : ℝ} (lon1 lon2 : ℝ) (h1 : |lat1| ≤ 90) (h2 : |lat2| ≤ 90) :
    0 ≤ aTerm lat1 lon1 lat2 lon2 := by
  unfold aTerm
  have := mul_nonneg (cos_radians_nonneg h1) (cos_radians_nonneg h2)
  positivity

theorem sin_sq_half_eq (D : ℝ) : Real.sin (D / 2) ^ 2 = 1 / 2 - Real.cos D / 2 := by
  have h := Real.sin_sq_eq_half_sub (D / 2)
  rwa [show 2 * (D / 2) = D from by ring] at h

theorem aTerm_le_one {lat1 lat2 : ℝ} (lon1 lon2 : ℝ) (h1 : |lat1| ≤ 90) (h2 : |lat2| ≤ 90) :
    aTerm lat1 lon1 lat2 lon2 ≤ 1 := by
  have hrad : radians (lat2 - lat1) = radians lat2 - radians lat1 := by
    unfold radians; ring
  have hB : 0 ≤ Real.cos (radians lat1) * Real.cos (radians lat2) :=
    mul_nonneg (cos_radians_nonneg h1) (cos_radians_nonneg h2)
  have hS : Real.sin (radians (lon2 - lon1) / 2) ^ 2 ≤ 1 := Real.sin_sq_le_one _
  have hS0 : 0 ≤ Real.sin (radians (lon2 - lon1) / 2) ^ 2 := sq_nonneg _
  have hA : Real.sin (radians (lat2 - lat1) / 2) ^ 2 =
      1 / 2 - Real.cos (radians lat2 - radians lat1) / 2 := by
    rw [hrad] at *
    exact sin_sq_half_eq _
  have hcsub : Real.cos (radians lat2 - radians lat1) =
      Real.cos (radians lat2) * Real.cos (radians lat1) +
        Real.sin (radians lat2) * Real.sin (radians lat1) := Real.cos_sub _ _
  have hcadd : Real.cos (radians lat2 + radians lat1) =
      Real.cos (radians lat2) * Real.cos (radians lat1) -
        Real.sin (radians lat2) * Real.sin (radians lat1) := Real.cos_add _ _
  have hc1 : Real.cos (radians lat2 + radians lat1) ≤ 1 := Real.cos_le_one _
  unfold aTerm
  rw [hA, hcsub]
  nlinarith [hB, hS, hS0, hc1, hcadd]

theorem haversine_nonneg (lat1 lon1 lat2 lon2 : ℝ) : 0 ≤ haversine lat1 lon1 lat2 lon2 := by
  unfold haversine
  have h := atan2_nonneg (Real.sqrt_nonneg (aTerm lat1 lon1 lat2 lon2))
    (Real.sqrt_nonneg (1 - aTerm lat1 lon1 lat2 lon2))
  have hR : (0:ℝ) ≤ 2 * earthR := by unfold earthR; norm_num
  exact mul_nonneg hR h

theorem haversine_le_pi_mul_R (lat1 lon1 lat2 lon2 : ℝ) :
    haversine lat1 lon1 lat2 lon2 ≤ Real.pi * earthR := by
  unfold haversine
  have h := atan2_le_pi_div_two (Real.sqrt_nonneg (aTerm lat1 lon1 lat2 lon2))
    (Real.sqrt_nonneg (1 - aTerm lat1 lon1 lat2 lon2))
  have hR : (0:ℝ) < 2 * earthR := by unfold earthR; norm_num
  calc 2 * earthR * atan2 (Real.sqrt (aTerm lat1 lon1 lat2 lon2))
        (Real.sqrt (1 - aTerm lat1 lon1 lat2 lon2)) ≤ 2 * earthR * (Real.pi / 2) :=
          mul_le_mul_of_nonneg_left h (le_of_lt hR)
    _ = Real.pi * earthR := by ring

theorem aTerm_antipodal (lat lon : ℝ) : aTerm lat lon (-lat) (lon + 180) = 1 := by
  unfold aTerm radians
  rw [show (-lat - lat) * (Real.pi / 180) / 2 = -(lat * (Real.pi / 180)) from by ring,
    show (lon + 180 - lon) * (Real.pi / 180) / 2 = Real.pi / 2 from by ring,
    show (-lat) * (Real.pi / 180) = -(lat * (Real.pi / 180)) from by ring,
    Real.sin_pi_div_two, Real.sin_neg, Real.cos_neg]
  have h := Real.sin_sq_add_cos_sq (lat * (Real.pi / 180))
  nlinarith [h]

theorem haversine_antipodal (lat lon : ℝ) :
    haversine lat lon (-lat) (lon + 180) = Real.pi * earthR := by
  unfold haversine
  rw [aTerm_antipodal, sub_self, Real.sqrt_zero, Real.sqrt_one, atan2_one_zero]
  ring

theorem aTerm_symm (lat1 lon1 lat2 lon2 : ℝ) :
    aTerm lat2 lon2 lat1 lon1 = aTerm lat1 lon1 lat2 lon2 := by
  unfold aTerm radians
  rw [show (lat1 - lat2) * (Real.pi / 180) / 2 = -((lat2 - lat1) * (Real.pi / 180) / 2) from by
      ring,
    show (lon1 - lon2) * (Real.pi / 180) / 2 = -((lon2 - lon1) * (Real.pi / 180) / 2) from by
      ring,
    Real.sin_neg, Real.sin_neg]
  ring

theorem haversine_symm (lat1 lon1 lat2 lon2 : ℝ) :
    haversine lat1 lon1 lat2 lon2 = haversine lat2 lon2 lat1 lon1 := by
  unfold haversine
  rw [aTerm_symm]

theorem aTerm_self (lat lon : ℝ) : aTerm lat lon lat lon = 0 := by
  unfold aTerm radians
  simp

theorem haversine_self (lat lon : ℝ) : haversine lat lon lat lon = 0 := by
  unfold haversine
  rw [aTerm_self, Real.sqrt_zero, sub_zero, Real.sqrt_one, atan2_zero_one]
  ring

theorem aTerm_pole : aTerm 90 0 90 50 = 0 := by
  unfold aTerm radians
  rw [show ((90:ℝ) - 90) * (Real.pi / 180) / 2 = 0 from by ring,
    show (90:ℝ) * (Real.pi / 180) = Real.pi / 2 from by ring,
    Real.sin_zero, Real.cos_pi_div_two]
  ring

theorem haversine_pole : haversine 90 0 90 50 = 0 := by
  unfold haversine
  rw [aTerm_pole, Real.sqrt_zero, sub_zero, Real.sqrt_one, atan2_zero_one]
  ring

/-- Claim C2: for every pair of (lat, lng) points (latitudes in the valid
[-90, 90] range for the bound on the angular term), `haversine` returns a
finite non-negative value without a domain fault: the square-root argument
`a` of the angular term lies in [0, 1], the distance lies in
[0, π × Earth radius], and for antipodal points the result is exactly
π × Earth radius. -/
theorem claim_C2_haversine_safe :
    (∀ lat1 lon1 lat2 lon2 : ℝ,
        0 ≤ haversine lat1 lon1 lat2 lon2 ∧
          haversine lat1 lon1 lat2 lon2 ≤ Real.pi * earthR) ∧
    (∀ lat1 lon1 lat2 lon2 : ℝ, |lat1| ≤ 90 → |lat2| ≤ 90 →
        0 ≤ aTerm lat1 lon1 lat2 lon2 ∧ aTerm lat1 lon1 lat2 lon2 ≤ 1) ∧
    (∀ lat lon : ℝ, haversine lat lon (-lat) (lon + 180) = Real.pi * earthR) :=
  ⟨fun lat1 lon1 lat2 lon2 =>
    ⟨haversine_nonneg lat1 lon1 lat2 lon2, haversine_le_pi_mul_R lat1 lon1 lat2 lon2⟩,
   fun lat1 lon1 lat2 lon2 h1 h2 =>
    ⟨aTerm_nonneg lon1 lon2 h1 h2, aTerm_le_one lon1 lon2 h1 h2⟩,
   fun lat lon => haversine_antipodal lat lon⟩

/-- Witness for claim C2 at the concrete point (0, 0) to (0, 0). -/
theorem claim_C2_haversine_safe_witness :
    0 ≤ aTerm 0 0 0 0 ∧ aTerm 0 0 0 0 ≤ 1 :=
  claim_C2_haversine_safe.2.1 0 0 0 0 (by norm_num) (by norm_num)

/-- Counterexample to claim C9 as stated: the result of `haversine` is not
zero *only* for coincident coordinate pairs.  At the north pole the points
(90, 0) and (90, 50) have distinct coordinates (0 ≠ 50) yet distance 0. -/
theorem claim_C9_counterexample :
    haversine 90 0 90 50 = 0 ∧ ¬((90:ℝ) = 90 ∧ (0:ℝ) = 50) := by
  refine ⟨haversine_pole, ?_⟩
  intro h
  exact absurd h.2 (by norm_num)

/-- Claim C9 (amended): `haversine` is symmetric in its two points, and
coincident points are at distance 0; the converse (zero distance only at
equal coordinate pairs) fails at the poles and at longitudes congruent
modulo 360 degrees. -/
theorem claim_C9_haversine_symm_self :
    (∀ lat1 lon1 lat2 lon2 : ℝ,
        haversine lat1 lon1 lat2 lon2 = haversine lat2 lon2 lat1 lon1) ∧
    (∀ lat lon : ℝ, haversine lat lon lat lon = 0) :=
  ⟨haversine_symm, haversine_self⟩

/-! ### Aggregation stage of `run_analysis` (`analysis.py`, lines 64-107)

The dataframe rows are embedded as `Course` records over exact rationals.
A missing CSV cell (pandas `NaN`) is `none`.  The `distance` field is the
column computed on line 92 from `haversine` (embedded above over `ℝ`); the
aggregation operates on that column only, so it is carried as data here to
keep the stage executable.  pandas semantics mirrored below: arithmetic on
a missing value is missing, `sum`/`cumsum` skip missing values, and the
boolean filters `pct > t` / `pct <= t` are `false` on a missing value. -/

structure Course where
  pct_black : Option ℚ
  total_pop : Option ℚ
  distance : ℚ
deriving Repr, DecidableEq

/-- Line 95: `df[black_pop] = (df[pct_black] / 100) * df[total_pop]`,
missing if either factor is missing. -/
def black_pop_of (c : Course) : Option ℚ :=
  match c.pct_black, c.total_pop with
  | some p, some t => some (p / 100 * t)
  | _, _ => none

/-- Ordering of rows by the `distance` column, for line 98. -/
def distLE (a b : Course) : Prop := a.distance ≤ b.distance

instance : DecidableRel distLE := fun a b => inferInstanceAs (Decidable (a.distance ≤ b.distance))

instance : IsTotal Course distLE := ⟨fun a b => le_total a.distance b.distance⟩

instance : IsTrans Course distLE := ⟨fun _ _ _ hab hbc => le_trans hab hbc⟩

/-- Line 98: `df_sorted = df.sort_values(by=distance)`.  The reordering
is modelled by insertion sort; every property proved below depends only on
the output being a permutation of the input ordered by `distance` (the
tie-breaking permutation of `sort_values`, whose default kind is numpy
quicksort, is not modelled). -/
def df_sorted (l : List Course) : List Course := List.insertionSort distLE l

/-- pandas `Series.cumsum()` with its default `skipna=True`: missing
entries stay missing and do not advance the running total. -/
def cumsumSkipNA : List (Option ℚ) → ℚ → List (Option ℚ)
  | [], _ => []
  | none :: t, acc => none :: cumsumSkipNA t acc
  | some x :: t, acc => some (acc + x) :: cumsumSkipNA t (acc + x)

/-- pandas `Series.sum()` with its default `skipna=True`. -/
def sumSkipNA (l : List (Option ℚ)) : ℚ := (l.filterMap id).sum

/-- Line 102: `total_black_pop = df_sorted[black_pop].sum()`. -/
def total_black_pop (l : List Course) : ℚ :=
  sumSkipNA ((df_sorted l).map black_pop_of)

/-- Line 101: `df_sorted[cum_black_pop] = df_sorted[black_pop].cumsum()`. -/
def cum_black_pop (l : List Course) : List (Option ℚ) :=
  cumsumSkipNA ((df_sorted l).map black_pop_of) 0

/-- Line 103: `df_sorted[relative_fraction] = df_sorted[cum_black_pop] / total_black_pop`. -/
def relative_fraction (l : List Course) : List (Option ℚ) :=
  (cum_black_pop l).map (Option.map (fun c => c / total_black_pop l))

/-- The summand of line 106: `df_sorted[distance] * df_sorted[black_pop]`. -/
def weighted_distance (c : Course) : Option ℚ :=
  (black_pop_of c).map (fun w => c.distance * w)

/-- Line 106: `avg_dist = (df_sorted[distance] * df_sorted[black_pop]).sum() / total_black_pop`. -/
def avg_dist (l : List Course) : ℚ :=
  sumSkipNA ((df_sorted l).map weighted_distance) / total_black_pop l

/-- Line 65: `majority_black = df[df[pct_black] > t].shape[0]`
(`run_analysis` instantiates the threshold `t` with the literal `51`). -/
def majority_black (l : List Course) (t : ℚ) : Nat :=
  l.countP fun c =>
    match c.pct_black with
    | some v => decide (t < v)
    | none => false

/-- Line 66: `not_majority_black = df[df[pct_black] <= t].shape[0]`. -/
def not_majority_black (l : List Course) (t : ℚ) : Nat :=
  l.countP fun c =>
    match c.pct_black with
    | some v => decide (v ≤ t)
    | none => false

/-- Exact running sums over a list of rationals, the image of
`cumsumSkipNA` on the present entries. -/
def cumList : List ℚ → ℚ → List ℚ
  | [], _ => []
  | x :: t, acc => (acc + x) :: cumList t (acc + x)

theorem filterMap_cumsumSkipNA (l : List (Option ℚ)) (acc : ℚ) :
    (cumsumSkipNA l acc).filterMap id = cumList (l.filterMap id) acc := by
  induction l generalizing acc with
  | nil => rfl
  | cons o t ih =>
    cases o with
    | none => simpa [cumsumSkipNA, cumList] using ih acc
    | some x => simpa [cumsumSkipNA, cumList] using ih (acc + x)

theorem filterMap_map_option_map (l : List (Option ℚ)) (f : ℚ → ℚ) :
    (l.map (Option.map f)).filterMap id = (l.filterMap id).map f := by
  induction l with
  | nil => rfl
  | cons o t ih =>
    cases o with
    | none => simpa using ih
    | some x => simpa using ih

theorem cumList_chain' (l : List ℚ) (acc : ℚ) (h : ∀ x ∈ l, 0 ≤ x) :
    List.Chain' (· ≤ ·) (cumList l acc) := by
  induction l generalizing acc with
  | nil => simp [cumList]
  | cons x t ih =>
    have ht : ∀ z ∈ t, 0 ≤ z := fun z hz => h z (List.mem_cons_of_mem _ hz)
    cases t with
    | nil => simp [cumList]
    | cons y u =>
      have hy : 0 ≤ y := ht y (List.mem_cons_self y u)
      have := ih (acc + x) ht
      rw [show cumList (x :: y :: u) acc =
        (acc + x) :: (acc + x + y) :: cumList u (acc + x + y) from rfl]
      rw [show cumList (y :: u) (acc + x) =
        (acc + x + y) :: cumList u (acc + x + y) from rfl] at this
      exact List.Chain'.cons (by linarith) this

theorem cumList_getLast (l : List ℚ) (acc : ℚ) (h : l ≠ []) :
    (cumList l acc).getLast? = some (acc + l.sum) := by
  induction l generalizing acc with
  | nil => exact absurd rfl h
  | cons x t ih =>
    cases t with
    | nil => simp [cumList]
    | cons y u =>
      rw [show cumList (x :: y :: u) acc =
        (acc + x) :: (acc + x + y) :: cumList u (acc + x + y) from rfl,
        List.getLast?_cons_cons,
        show (acc + x + y) :: cumList u (acc + x + y) = cumList (y :: u) (acc + x) from rfl,
        ih (acc + x) (List.cons_ne_nil y u)]
      congr 1
      simp only [List.sum_cons]
      ring

theorem sumSkipNA_sorted (l : List Course) (f : Course → Option ℚ) :
    sumSkipNA ((df_sorted l).map f) = sumSkipNA (l.map f) := by
  unfold sumSkipNA df_sorted
  exact List.Perm.sum_eq (((List.perm_insertionSort distLE l).map f).filterMap id)

theorem black_pop_nonneg {l : List Course}
    (hpct : ∀ c ∈ l, ∀ p, c.pct_black = some p → 0 ≤ p)
    (hpop : ∀ c ∈ l, ∀ t, c.total_pop = some t → 0 ≤ t) :
    ∀ w ∈ ((df_sorted l).map black_pop_of).filterMap id, 0 ≤ w := by
  intro w hw
  rw [List.mem_filterMap] at hw
  obtain ⟨o, ho, hoo⟩ := hw
  rw [List.mem_map] at ho
  obtain ⟨c, hc, hco⟩ := ho
  have hcl : c ∈ l := by
    unfold df_sorted at hc
    exact (List.mem_insertionSort distLE).mp hc
  rw [← hco] at hoo
  simp only [id] at hoo
  unfold black_pop_of at hoo
  rcases hp : c.pct_black with _ | p
  · rw [hp] at hoo
    simp at hoo
  · rcases ht : c.total_pop with _ | t
    · rw [hp, ht] at hoo
      simp at hoo
    · rw [hp, ht] at hoo
      simp only [Option.some.injEq] at hoo
      have h1 : 0 ≤ p := hpct c hcl p hp
      have h2 : 0 ≤ t := hpop c hcl t ht
      rw [← hoo]
      positivity

/-- Claim C4: whenever the total weighted population is positive (and the
per-entity demographic fields are non-negative, as the data model requires),
the `relative_fraction` values present in the derived column are
monotonically non-decreasing, and the last one equals 1 exactly (hence
within the 1e-9 tolerance). -/
theorem claim_C4_relative_fraction_monotone (l : List Course)
    (hpct : ∀ c ∈ l, ∀ p, c.pct_black = some p → 0 ≤ p)
    (hpop : ∀ c ∈ l, ∀ t, c.total_pop = some t → 0 ≤ t)
    (htot : 0 < total_black_pop l) :
    List.Chain' (· ≤ ·) ((relative_fraction l).filterMap id) ∧
      ((relative_fraction l).filterMap id).getLast? = some 1 := by
  have hwnn := black_pop_nonneg hpct hpop
  have hT : total_black_pop l = (((df_sorted l).map black_pop_of).filterMap id).sum := rfl
  have hfr : (relative_fraction l).filterMap id =
      (cumList (((df_sorted l).map black_pop_of).filterMap id) 0).map
        (fun c => c / total_black_pop l) := by
    unfold relative_fraction cum_black_pop
    rw [filterMap_map_option_map, filterMap_cumsumSkipNA]
  have hmono : ∀ a b : ℚ, a ≤ b → a / total_black_pop l ≤ b / total_black_pop l := by
    intro a b hab
    rw [div_eq_mul_inv, div_eq_mul_inv]
    exact mul_le_mul_of_nonneg_right hab (inv_nonneg.mpr (le_of_lt htot))
  constructor
  · rw [hfr]
    exact List.chain'_map_of_chain' _ hmono (cumList_chain' _ 0 hwnn)
  · rw [hfr]
    have hne : ((df_sorted l).map black_pop_of).filterMap id ≠ [] := by
      intro h0
      rw [hT, h0] at htot
      simp at htot
    rw [List.getLast?_map, cumList_getLast _ 0 hne]
    simp only [Option.map_some', zero_add, ← hT]
    exact congrArg some (div_self (ne_of_gt htot))

/-- The worked example of the spec: entity A with 60% of 1000 at 5 miles,
entity B with 10% of 2000 at 12 miles. -/
def exA : Course := ⟨some 60, some 1000, 5⟩

def exB : Course := ⟨some 10, some 2000, 12⟩

def exAB : List Course := [exA, exB]

theorem df_sorted_exAB : df_sorted exAB = [exA, exB] := by
  have h : distLE exA exB := by norm_num [distLE, exA, exB]
  simp [df_sorted, exAB, List.insertionSort, List.orderedInsert, h]

theorem black_pop_exAB : (df_sorted exAB).map black_pop_of = [some 600, some 200] := by
  rw [df_sorted_exAB]
  norm_num [black_pop_of, exA, exB]

theorem total_exAB : total_black_pop exAB = 800 := by
  unfold total_black_pop
  rw [black_pop_exAB]
  norm_num [sumSkipNA, List.filterMap_cons, id_eq]

theorem fractions_exAB : (relative_fraction exAB).filterMap id = [3 / 4, 1] := by
  unfold relative_fraction cum_black_pop
  rw [black_pop_exAB, total_exAB]
  norm_num [cumsumSkipNA, List.filterMap_cons, id_eq]

theorem avg_dist_exAB : avg_dist exAB = 27 / 4 := by
  unfold avg_dist
  rw [total_exAB, df_sorted_exAB]
  norm_num [weighted_distance, black_pop_of, exA, exB, sumSkipNA,
    List.filterMap_cons, id_eq]

/-- Witness for claim C4 on the worked example. -/
theorem claim_C4_witness :
    List.Chain' (· ≤ ·) ((relative_fraction exAB).filterMap id) ∧
      ((relative_fraction exAB).filterMap id).getLast? = some 1 :=
  claim_C4_relative_fraction_monotone exAB
    (by
      intro c hc p hp
      fin_cases hc <;> simp only [exA, exB, Option.some.injEq] at hp <;> rw [← hp] <;>
        norm_num)
    (by
      intro c hc t ht
      fin_cases hc <;> simp only [exA, exB, Option.some.injEq] at ht <;> rw [← ht] <;>
        norm_num)
    (by rw [total_exAB]; norm_num)

/-- Claim C5: the population-weighted mean distance computed by the code
over the sorted rows equals `Σ(distance_i * weighted_pop_i)` over the
entities in their original discovery order, divided by the total weighted
population; on the worked example the weighted populations are 600 and
200, the cumulative fractions 3/4 and 1, and the mean distance 27/4
(= 6.75 miles). -/
theorem claim_C5_mean_weighted_distance :
    (∀ l : List Course, 0 < total_black_pop l →
        avg_dist l =
          sumSkipNA (l.map weighted_distance) / sumSkipNA (l.map black_pop_of)) ∧
    (df_sorted exAB).map black_pop_of = [some 600, some 200] ∧
    total_black_pop exAB = 800 ∧
    (relative_fraction exAB).filterMap id = [3 / 4, 1] ∧
    avg_dist exAB = 27 / 4 := by
  refine ⟨?_, black_pop_exAB, total_exAB, fractions_exAB, avg_dist_exAB⟩
  intro l _
  unfold avg_dist total_black_pop
  rw [sumSkipNA_sorted l weighted_distance, sumSkipNA_sorted l black_pop_of]

/-- Witness for claim C5 at the worked example. -/
theorem claim_C5_witness :
    avg_dist exAB =
      sumSkipNA (exAB.map weighted_distance) / sumSkipNA (exAB.map black_pop_of) :=
  claim_C5_mean_weighted_distance.1 exAB (by rw [total_exAB]; norm_num)

/-- The failing input for claim C1: a single discovered entity whose tract
reports 0% of the tracked attribute, so the total weighted population is
zero. -/
def exZero : List Course := [⟨some 0, some 100, 5⟩]

/-- Claim C1 (evaluation of the code at the failing input): `run_analysis`
has no guard for a zero total weighted population — line 103 divides the
cumulative column by it and line 106 divides the weighted distance sum by
it regardless.  The derived row sequence it builds is NOT empty: on the
failing input it has one row.  (In pandas the 0/0 entries are `NaN`; the
rational embedding makes division by zero 0, and the length and the zero
total are unaffected by that convention.) -/
theorem claim_C1_zero_total_eval :
    total_black_pop exZero = 0 ∧ (relative_fraction exZero).length = 1 := by
  constructor
  · unfold total_black_pop df_sorted exZero
    norm_num [List.insertionSort, List.orderedInsert, black_pop_of, sumSkipNA,
      List.filterMap_cons, id_eq]
  · unfold relative_fraction cum_black_pop df_sorted exZero
    norm_num [List.insertionSort, List.orderedInsert, black_pop_of, cumsumSkipNA]

theorem countP_split (os : List (Option ℚ)) (t : ℚ) :
    os.countP (fun o => match o with | some v => decide (t < v) | none => false) +
      os.countP (fun o => match o with | some v => decide (v ≤ t) | none => false) =
      os.countP Option.isSome := by
  induction os with
  | nil => rfl
  | cons o os ih =>
    rw [List.countP_cons, List.countP_cons, List.countP_cons]
    rcases o with _ | v
    · simpa using ih
    · rcases le_or_lt v t with h | h
      · have h1 : decide (t < v) = false := decide_eq_false (not_lt.mpr h)
        have h2 : decide (v ≤ t) = true := decide_eq_true h
        simp [h1, h2]
        omega
      · have h1 : decide (t < v) = true := decide_eq_true h
        have h2 : decide (v ≤ t) = false := decide_eq_false (not_le.mpr h)
        simp [h1, h2]
        omega

theorem majority_black_eq_map (l : List Course) (t : ℚ) :
    majority_black l t =
      (l.map Course.pct_black).countP
        (fun o => match o with | some v => decide (t < v) | none => false) := by
  unfold majority_black
  rw [List.countP_map]
  rfl

theorem not_majority_black_eq_map (l : List Course) (t : ℚ) :
    not_majority_black l t =
      (l.map Course.pct_black).countP
        (fun o => match o with | some v => decide (v ≤ t) | none => false) := by
  unfold not_majority_black
  rw [List.countP_map]
  rfl

/-- Claim C7: for every entity list and threshold `t` (the code instantiates
`t = 51`), the two binary-split counts partition exactly the entities whose
`pct_black` is present — their sum is the number of present values — and
both counts depend only on the `pct_black` column, not on `total_pop` or on
any distance data. -/
theorem claim_C7_binary_split :
    (∀ (l : List Course) (t : ℚ),
        majority_black l t + not_majority_black l t =
          (l.map Course.pct_black).countP Option.isSome) ∧
    (∀ (l l' : List Course) (t : ℚ),
        l.map Course.pct_black = l'.map Course.pct_black →
          majority_black l t = majority_black l' t ∧
            not_majority_black l t = not_majority_black l' t) := by
  constructor
  · intro l t
    rw [majority_black_eq_map, not_majority_black_eq_map]
    exact countP_split (l.map Course.pct_black) t
  · intro l l' t h
    rw [majority_black_eq_map, not_majority_black_eq_map,
      majority_black_eq_map l' t, not_majority_black_eq_map l' t, h]
    exact ⟨rfl, rfl⟩

/-- Witness inputs for claim C7: identical `pct_black` columns, different
`total_pop` and `distance` data. -/
def exC7a : List Course := [⟨some 60, some 1000, 5⟩]

def exC7b : List Course := [⟨some 60, none, 7⟩]

/-- Witness for claim C7 at threshold 51 (the literal used by the code). -/
theorem claim_C7_witness :
    majority_black exC7a 51 = majority_black exC7b 51 ∧
      not_majority_black exC7a 51 = not_majority_black exC7b 51 :=
  claim_C7_binary_split.2 exC7a exC7b 51 rfl

/-! ### Incremental merge set (`maps_golf_lookup.py`, lines 185-209)

One iteration of the discovery loop over a place returned by the search
provider.  The deduplicated collection `unique_courses` is a Python dict
keyed by `place_id`, embedded as an insertion-ordered association list.
The demographic lookup result for the new place (the composition of
`get_census_tract` and `get_demographics`, both external calls) is passed
in as an oracle value: `none` when either lookup failed, `some (pct, pop)`
on success.  The lookup is attempted only inside the not-yet-present
branch, exactly as in the source. -/

structure Place where
  place_id : String
  name : String
  pct_black : Option ℚ
  total_pop : Option ℚ
deriving Repr, DecidableEq

/-- Lines 185-209: `if place_id not in unique_courses: ... unique_courses[place_id]
= place ... place[pct_black] = ...; place[total_pop] = ... else: pass`.
Returns the updated collection and whether a new entity was inserted. -/
def process_place (m : List (String × Place)) (p : Place) (demo : Option (ℚ × ℚ)) :
    List (String × Place) × Bool :=
  if m.any (fun kv => kv.1 == p.place_id) then (m, false)
  else
    (m ++ [(p.place_id,
      match demo with
      | some d => { p with pct_black := some d.1, total_pop := some d.2 }
      | none => p)], true)

/-- Claim C3: adding a place whose id is already in the merge set changes
nothing — the stored entity and its demographic fields survive unchanged no
matter what data the rediscovery offers — and the operation reports that
nothing new was inserted. -/
theorem claim_C3_first_seen_wins (m : List (String × Place)) (p : Place)
    (demo : Option (ℚ × ℚ)) (h : m.any (fun kv => kv.1 == p.place_id) = true) :
    process_place m p demo = (m, false) := by
  unfold process_place
  rw [if_pos h]

/-- A sample stable identifier for the claim C3 witness. -/
def pid1 : String := "course1"

/-- Witness collection for claim C3: one stored place with demographics
already assigned. -/
def exMerge : List (String × Place) :=
  [(pid1, { place_id := pid1, name := pid1, pct_black := some 60, total_pop := some 1000 })]

/-- Witness for claim C3: rediscovering the stored id with fresh demographic
data (10%, 2000) leaves the collection unchanged and returns `false`. -/
theorem claim_C3_witness :
    process_place exMerge
      { place_id := pid1, name := pid1, pct_black := none, total_pop := none }
      (some (10, 2000)) = (exMerge, false) :=
  claim_C3_first_seen_wins _ _ _ (by decide)

/-! ### Radius-skip logic (`maps_golf_lookup.py`, lines 154-171)

`existing_metadata["search_origin"]` may be absent, so the persisted
coordinates are `Option`-valued.  The Python literal `1e-6` is idealised
as the exact rational 1/1000000. -/

/-- Lines 158-162: `is_same_origin = (prev_lat is not None and prev_lng is
not None and abs(prev_lat - search_origin[0]) < 1e-6 and abs(prev_lng -
search_origin[1]) < 1e-6)`. -/
def is_same_origin (prev_lat prev_lng : Option ℚ) (origin : ℚ × ℚ) : Bool :=
  match prev_lat, prev_lng with
  | some plat, some plng =>
      decide (|plat - origin.1| < 1 / 1000000) && decide (|plng - origin.2| < 1 / 1000000)
  | _, _ => false

/-- Lines 166-171: the loop body runs for `radius` unless
`is_same_origin and radius_mi in existing_metadata.get("radii_searched_miles", [])`;
the spec names this predicate `is_radius_needed`. -/
def is_radius_needed (prev_lat prev_lng : Option ℚ) (origin : ℚ × ℚ)
    (completed : List ℚ) (radius : ℚ) : Bool :=
  !(is_same_origin prev_lat prev_lng origin && decide (radius ∈ completed))

/-- Claim C8: `is_radius_needed` is `false` exactly when the persisted
origin exists, both of its coordinates match the current origin within
1e-6 degrees, and the radius is in the completed set; in every other case —
in particular whenever the persisted origin differs from the current one —
it is `true`, so a changed origin invalidates all prior radius history for
skip decisions. -/
theorem claim_C8_radius_skip (prev_lat prev_lng : Option ℚ) (origin : ℚ × ℚ)
    (completed : List ℚ) (radius : ℚ) :
    is_radius_needed prev_lat prev_lng origin completed radius = false ↔
      (∃ plat plng, prev_lat = some plat ∧ prev_lng = some plng ∧
          |plat - origin.1| < 1 / 1000000 ∧ |plng - origin.2| < 1 / 1000000) ∧
        radius ∈ completed := by
  unfold is_radius_needed is_same_origin
  cases prev_lat with
  | none => simp
  | some a =>
    cases prev_lng with
    | none => simp
    | some b => simp [and_assoc]

/-! ### Demographic lookup arithmetic (`maps_golf_lookup.py`, lines 85-88;
`temp_integration.py`, lines 58-61)

The two copies of `get_demographics` share the same arithmetic once the
provider response is parsed into the two integers `black_pop` and
`total_pop`; the network parsing and the surrounding `try/except` are the
external part.  Python `round(x, 2)` rounds half to even. -/

/-- Python `round(q, 2)` under exact arithmetic: round `100 q` to the
nearest integer, ties to even, then divide by 100. -/
def pyRound2 (q : ℚ) : ℚ :=
  ((let s := q * 100
    let f := Int.floor s
    let r := s - f
    if r < 1 / 2 then f else if 1 / 2 < r then f + 1 else if f % 2 = 0 then f else f + 1 : ℤ)
      : ℚ) / 100

/-- Lines 85-88: `pct_black = (black_pop / total_pop) * 100 if total_pop > 0
else 0; return ⦃pct_black: round(pct_black, 2), total_pop: total_pop⦄`. -/
def get_demographics (black_pop total_pop : ℤ) : ℚ × ℤ :=
  (pyRound2 (if 0 < total_pop then ((black_pop : ℚ) / (total_pop : ℚ)) * 100 else 0),
    total_pop)

/-- Claim C10: when the provider reports a total population of 0, the
lookup performs no division and returns the record with 0% and total
population 0 — not a fault and not an absent record. -/
theorem claim_C10_zero_population (black_pop : ℤ) :
    get_demographics black_pop 0 = (0, 0) := by
  unfold get_demographics pyRound2
  norm_num

end GolfResearch
